import Mathlib

/-!
Verification of the food_scan_server repository.

Python text is modelled as `List Char`.  `str.replace(old, "")` with a
non-empty pattern is leftmost, non-overlapping removal of occurrences; it is
embedded here as `removeAll`, driven by a fuel counter equal to the input
length so that every definition stays executable by the kernel.  `str.strip()`
is embedded as `pyStrip` (ASCII whitespace; the Unicode extension is
irrelevant to every statement below).
-/

/-- Whitespace characters stripped by Python `str.strip()` (ASCII part). -/
def pySpace (c : Char) : Bool :=
  c == ' ' || c == '\t' || c == '\n' || c == '\r' || c == '\x0b' || c == '\x0c'

/-- Python `str.strip()`: drop leading and trailing whitespace. -/
def pyStrip (s : List Char) : List Char :=
  ((s.dropWhile pySpace).reverse.dropWhile pySpace).reverse

/-- Fueled worker for `removeAll`.  One unit of fuel is spent per character
position; a match consumes `n.length ≥ 1` characters, so fuel `s.length`
always suffices. -/
def removeAllGo (n : List Char) : Nat → List Char → List Char
  | _, [] => []
  | 0, s => s
  | f + 1, c :: rest =>
    if n <+: (c :: rest) then removeAllGo n f ((c :: rest).drop n.length)
    else c :: removeAllGo n f rest

/-- Python `s.replace(n, "")` for a non-empty pattern `n`: remove all
leftmost, non-overlapping occurrences of `n` from `s`. -/
def removeAll (n s : List Char) : List Char := removeAllGo n s.length s

/-- The opening code-fence marker stripped by the server (`"```json"`). -/
def fenceJson : List Char := "```json".data

/-- The closing code-fence marker stripped by the server (`"```"`). -/
def tick3 : List Char := "```".data

/-- Embedding of `server.py` line 169:
`result_text.replace("```json", "").replace("```", "").strip()`. -/
def cleanJson (s : List Char) : List Char :=
  pyStrip (removeAll tick3 (removeAll fenceJson s))

/-- A model reply consisting of a text wrapped in the literal markers
`"```json"` and `"```"`. -/
def wrapFence (t : List Char) : List Char := fenceJson ++ t ++ tick3

theorem removeAllGo_nil (n : List Char) (f : Nat) : removeAllGo n f [] = [] := by
  cases f <;> rfl

theorem removeAllGo_fuel (n : List Char) (hn : n ≠ []) :
    ∀ f f' s, s.length ≤ f → s.length ≤ f' → removeAllGo n f s = removeAllGo n f' s := by
  have hnpos : 0 < n.length := List.length_pos.mpr hn
  intro f
  induction f with
  | zero =>
    intro f' s hf _
    have hs : s = [] := List.eq_nil_of_length_eq_zero (Nat.le_zero.mp hf)
    subst hs
    rw [removeAllGo_nil, removeAllGo_nil]
  | succ f ih =>
    intro f' s hf hf'
    cases s with
    | nil => rw [removeAllGo_nil, removeAllGo_nil]
    | cons c rest =>
      cases f' with
      | zero => simp at hf'
      | succ g =>
        simp only [removeAllGo]
        by_cases hp : n <+: (c :: rest)
        · rw [if_pos hp, if_pos hp]
          apply ih
          · simp only [List.length_drop, List.length_cons]
            simp only [List.length_cons] at hf
            omega
          · simp only [List.length_drop, List.length_cons]
            simp only [List.length_cons] at hf'
            omega
        · rw [if_neg hp, if_neg hp]
          simp only [List.length_cons] at hf hf'
          rw [ih g rest (by omega) (by omega)]

theorem removeAll_nil (n : List Char) : removeAll n [] = [] := rfl

theorem removeAll_cons (n : List Char) (hn : n ≠ []) (c : Char) (rest : List Char) :
    removeAll n (c :: rest) =
      if n <+: (c :: rest) then removeAll n ((c :: rest).drop n.length)
      else c :: removeAll n rest := by
  have hnpos : 0 < n.length := List.length_pos.mpr hn
  show removeAllGo n (c :: rest).length (c :: rest) = _
  simp only [List.length_cons, removeAllGo]
  by_cases hp : n <+: (c :: rest)
  · rw [if_pos hp, if_pos hp]
    apply removeAllGo_fuel n hn
    · simp only [List.length_drop, List.length_cons]
      omega
    · exact le_rfl
  · rw [if_neg hp, if_neg hp]
    rfl

theorem removeAll_append_self (n u : List Char) (hn : n ≠ []) :
    removeAll n (n ++ u) = removeAll n u := by
  obtain ⟨a, m, rfl⟩ : ∃ a m, n = a :: m := by
    cases n with
    | nil => exact absurd rfl hn
    | cons a m => exact ⟨a, m, rfl⟩
  rw [List.cons_append, removeAll_cons _ hn]
  have hp : (a :: m) <+: a :: (m ++ u) := by
    rw [← List.cons_append]
    exact List.prefix_append _ _
  rw [if_pos hp, ← List.cons_append, List.drop_left]

theorem prefix_of_append_left {n u v : List Char} (h : n <+: u ++ v)
    (hl : n.length ≤ u.length) : n <+: u := by
  have htake : (u ++ v).take n.length = u.take n.length := by
    rw [List.take_append_eq_append_take, Nat.sub_eq_zero_of_le hl, List.take_zero,
      List.append_nil]
  rw [List.prefix_iff_eq_take] at h
  rw [htake] at h
  rw [h]
  exact List.take_prefix _ _

theorem removeAll_append_of_no_span (n : List Char) (hn : n ≠ []) :
    ∀ k u v, u.length ≤ k →
      (∀ u₂, u₂ <:+ u → u₂ ≠ [] → n <+: u₂ ++ v → n <+: u₂) →
      removeAll n (u ++ v) = removeAll n u ++ removeAll n v := by
  have hnpos : 0 < n.length := List.length_pos.mpr hn
  intro k
  induction k with
  | zero =>
    intro u v hu _
    rw [List.eq_nil_of_length_eq_zero (Nat.le_zero.mp hu)]
    simp [removeAll_nil]
  | succ k ih =>
    intro u v hu hspan
    cases u with
    | nil => simp [removeAll_nil]
    | cons c rest =>
      simp only [List.length_cons] at hu
      by_cases hp : n <+: (c :: rest)
      · have hpv : n <+: (c :: rest) ++ v := hp.trans (List.prefix_append _ _)
        have hnu : n.length ≤ rest.length + 1 := by
          have := hp.length_le
          simpa using this
        rw [List.cons_append, removeAll_cons n hn, ← List.cons_append, if_pos hpv,
          removeAll_cons n hn c rest, if_pos hp]
        have hdrop : ((c :: rest) ++ v).drop n.length = (c :: rest).drop n.length ++ v := by
          rw [List.drop_append_eq_append_drop,
            Nat.sub_eq_zero_of_le (by simpa using hnu), List.drop_zero]
        rw [hdrop]
        apply ih
        · simp only [List.length_drop, List.length_cons]
          omega
        · intro u₂ hsuf hne hpre
          exact hspan u₂ (hsuf.trans (List.drop_suffix _ _)) hne hpre
      · have hpv : ¬ n <+: (c :: rest) ++ v := fun h =>
          hp (hspan (c :: rest) (List.suffix_refl _) (by simp) h)
        rw [List.cons_append, removeAll_cons n hn, if_neg (by rw [← List.cons_append]; exact hpv),
          removeAll_cons n hn c rest, if_neg hp, List.cons_append]
        rw [ih rest v (by omega)
          (fun u₂ hsuf hne hpre => hspan u₂ (hsuf.trans (List.suffix_cons _ _)) hne hpre)]

theorem removeAll_tick3_trailing : ∀ k w, w.length ≤ k →
    removeAll tick3 (w ++ tick3) = removeAll tick3 w := by
  have hn : tick3 ≠ [] := by decide
  intro k
  induction k with
  | zero =>
    intro w hw
    rw [List.eq_nil_of_length_eq_zero (Nat.le_zero.mp hw)]
    rw [removeAll_nil, List.nil_append]
    decide
  | succ k ih =>
    intro w hw
    cases w with
    | nil =>
      rw [removeAll_nil, List.nil_append]
      decide
    | cons c rest =>
      simp only [List.length_cons] at hw
      by_cases hp : tick3 <+: (c :: rest)
      · have hpv : tick3 <+: (c :: rest) ++ tick3 := hp.trans (List.prefix_append _ _)
        have hnu : tick3.length ≤ rest.length + 1 := by
          have := hp.length_le
          simpa using this
        rw [List.cons_append, removeAll_cons _ hn, ← List.cons_append, if_pos hpv,
          removeAll_cons _ hn c rest, if_pos hp]
        have hdrop : ((c :: rest) ++ tick3).drop tick3.length
            = (c :: rest).drop tick3.length ++ tick3 := by
          rw [List.drop_append_eq_append_drop,
            Nat.sub_eq_zero_of_le (by simpa using hnu), List.drop_zero]
        rw [hdrop]
        apply ih
        simp only [List.length_drop, List.length_cons]
        have : 0 < tick3.length := by decide
        omega
      · by_cases hpv : tick3 <+: (c :: rest) ++ tick3
        · have hlen : (c :: rest).length < tick3.length := by
            by_contra hge
            exact hp (prefix_of_append_left hpv (by omega))
          have hw3 : (c :: rest) = tick3.take (c :: rest).length := by
            obtain ⟨t', ht⟩ := hpv
            have h1 : ((c :: rest) ++ tick3).take (c :: rest).length = c :: rest :=
              List.take_left _ _
            have h2 : (tick3 ++ t').take (c :: rest).length = tick3.take (c :: rest).length := by
              rw [List.take_append_eq_append_take,
                Nat.sub_eq_zero_of_le (by omega), List.take_zero, List.append_nil]
            rw [← h2, ht, h1]
          have h12 : (c :: rest).length = 1 ∨ (c :: rest).length = 2 := by
            have h0 : 0 < (c :: rest).length := by simp
            have h3 : tick3.length = 3 := by decide
            omega
          rcases h12 with h1 | h2
          · rw [h1] at hw3
            rw [hw3]
            decide
          · rw [h2] at hw3
            rw [hw3]
            decide
        · rw [List.cons_append, removeAll_cons _ hn,
            if_neg (by rw [← List.cons_append]; exact hpv),
            removeAll_cons _ hn c rest, if_neg hp]
          rw [ih rest (by omega)]

theorem removeAll_fence_no_span (t : List Char) :
    ∀ u₂, u₂ <:+ t → u₂ ≠ [] → fenceJson <+: u₂ ++ tick3 → fenceJson <+: u₂ := by
  intro u₂ _ hne hpre
  by_cases hl : fenceJson.length ≤ u₂.length
  · exact prefix_of_append_left hpre hl
  · exfalso
    have h7 : fenceJson.length = 7 := by decide
    obtain ⟨t', ht⟩ := hpre
    have hlen4 : 4 ≤ u₂.length := by
      have := congrArg List.length ht
      simp only [List.length_append] at this
      have h3 : tick3.length = 3 := by decide
      omega
    have hi : (u₂ ++ tick3)[6]? = (fenceJson ++ t')[6]? := by rw [ht]
    rw [List.getElem?_append_right (by omega), List.getElem?_append] at hi
    have h46 : u₂.length = 4 ∨ u₂.length = 5 ∨ u₂.length = 6 := by omega
    rcases h46 with h | h | h <;> rw [h] at hi <;>
      simp only [fenceJson, tick3] at hi <;> simp at hi

theorem cleanJson_wrapFence (t : List Char) : cleanJson (wrapFence t) = cleanJson t := by
  have hfj : fenceJson ≠ [] := by decide
  have h1 : removeAll fenceJson (wrapFence t) = removeAll fenceJson t ++ tick3 := by
    show removeAll fenceJson (fenceJson ++ t ++ tick3) = _
    rw [List.append_assoc, removeAll_append_self fenceJson _ hfj,
      removeAll_append_of_no_span fenceJson hfj t.length t tick3 le_rfl
        (removeAll_fence_no_span t)]
    rw [show removeAll fenceJson tick3 = tick3 from by decide]
  unfold cleanJson
  rw [h1, removeAll_tick3_trailing (removeAll fenceJson t).length _ le_rfl]

/-!
JSON data model.  `json.loads` produces Python values; they are modelled by
`JValue` (numbers as integers: every barcode and every default in the claims
is integral, and no claim depends on float formatting).  Objects are
insertion-ordered key/value lists, matching Python 3.7+ `dict` order as
produced by `json.loads`; keys are unique in parser output, and `jGet` is
first-match lookup.
-/

inductive JValue where
  | null
  | bool (b : Bool)
  | num (n : Int)
  | str (s : List Char)
  | arr (xs : List JValue)
  | obj (kvs : List (List Char × JValue))

/-- Python `dict.get(key)` on an insertion-ordered item list: `some` of the
first value bound to `key`, else `none`. -/
def jGet : List (List Char × JValue) → List Char → Option JValue
  | [], _ => none
  | (k, v) :: rest, key => if k = key then some v else jGet rest key

/-- Python truthiness (`bool(x)`) of a JSON-decoded value: `None`, `False`,
`0`, `""`, `[]` and `{}` are falsy. -/
def jTruthy : JValue → Bool
  | .null => false
  | .bool b => b
  | .num n => n != 0
  | .str s => !s.isEmpty
  | .arr xs => !xs.isEmpty
  | .obj kvs => !kvs.isEmpty

/-- Fueled decimal rendering of a natural number, most significant digit
first.  Fuel `n + 1` always suffices (one digit per division by ten). -/
def natDecGo : Nat → Nat → List Char
  | 0, _ => []
  | f + 1, n =>
    if n < 10 then [Nat.digitChar n]
    else natDecGo f (n / 10) ++ [Nat.digitChar (n % 10)]

/-- Python `str(n)` for a non-negative integer. -/
def pyStrNat (n : Nat) : List Char := natDecGo (n + 1) n

/-- Python `str(i)` for an integer. -/
def pyStrInt : Int → List Char
  | .ofNat n => pyStrNat n
  | .negSucc m => '-' :: pyStrNat (m + 1)

mutual

/-- Python `repr` of a JSON-decoded value, used by `str()` on containers.
String escaping inside containers is simplified to plain single quotes; no
claim inspects a container barcode's rendering. -/
def pyRepr : JValue → List Char
  | .null => "None".data
  | .bool true => "True".data
  | .bool false => "False".data
  | .num n => pyStrInt n
  | .str s => '\'' :: s ++ ['\'']
  | .arr xs => '[' :: pyReprList xs ++ [']']
  | .obj kvs => '\x7b' :: pyReprKvs kvs ++ ['\x7d']

/-- Comma-separated `repr` of list elements. -/
def pyReprList : List JValue → List Char
  | [] => []
  | [x] => pyRepr x
  | x :: y :: rest => pyRepr x ++ ", ".data ++ pyReprList (y :: rest)

/-- Comma-separated `repr` of dict items. -/
def pyReprKvs : List (List Char × JValue) → List Char
  | [] => []
  | [(k, v)] => '\'' :: k ++ "': ".data ++ pyRepr v
  | (k, v) :: p :: rest =>
    '\'' :: k ++ "': ".data ++ pyRepr v ++ ", ".data ++ pyReprKvs (p :: rest)

end

/-- Python `str(x)` of a JSON-decoded value, as applied by `str(upc)` in both
`save_product_to_db` functions: identity on strings, decimal form on numbers,
`None`/`True`/`False` on the singletons, `repr` rendering on containers. -/
def pyStr : JValue → List Char
  | .str s => s
  | .null => "None".data
  | .bool true => "True".data
  | .bool false => "False".data
  | .num n => pyStrInt n
  | .arr xs => pyRepr (.arr xs)
  | .obj kvs => pyRepr (.obj kvs)

/-- Embedding of the barcode guard `not upc or upc == "null"` (negated):
the saved barcode must be truthy and must differ from the string `"null"`. -/
def usableUpc (u : JValue) : Bool :=
  jTruthy u && !(match u with
    | .str s => s = "null".data
    | _ => false)

/-!
The two persistence functions.  `server.py` defines and uses its own
`save_product_to_db` (flat item shape, zero / "Unknown" defaults);
`database.py` defines an independent one (nested sections, `None` defaults).
`server.py` does not import `database`, so the `/analyze` endpoint runs the
`Server` version.  In both, every exception is caught inside the function
(`except Exception`), so any shape that would make the Python code raise —
a non-dict payload, a non-dict `variables` value, a non-dict first item or
section — results in nothing being saved; those paths are modelled as
`none`.
-/

/-- A row of the `products` table as written by `server.py`
(columns in source order; values are the Python objects bound to the
SQL parameters). -/
structure ProductRow where
  upc : List Char
  item_name : JValue
  calories : JValue
  fat_g : JValue
  carbs_g : JValue
  protein_g : JValue
  fiber_g : JValue
  sodium_mg : JValue
  brand_name : JValue

/-- A row of the `products` table as written by `database.py`. -/
structure ProductRowDb where
  upc : List Char
  item_name : JValue
  brand_name : JValue
  srv_per_cont : JValue
  calories : JValue
  fat_g : JValue
  cholesterol_mg : JValue
  sodium_mg : JValue
  carbs_g : JValue
  fiber_g : JValue
  total_sugars_g : JValue
  added_sugars_g : JValue
  protein_g : JValue
  vit_d_mcg : JValue
  calcium_mg : JValue
  iron_mg : JValue
  potassium_mg : JValue
  serving_size : JValue
  score_color : JValue
  health_insight : JValue
  pairing_tip : JValue

namespace Server

/-- Embedding of `server.py` `save_product_to_db` (lines 70-112): descend
into `data.get("variables", {})`, take the first entry, require a truthy,
non-`"null"` `upc`, then build the row with flat-field lookups defaulting
numerics to `0` and brand to `"Unknown"`.  Returns the row handed to
`INSERT OR REPLACE`, or `none` when nothing is saved (missing/falsy
`variables`, non-dict shapes — which raise and are swallowed — or an
unusable barcode). -/
def save_product_to_db (data : JValue) : Option ProductRow :=
  match data with
  | .obj kvs =>
    match (jGet kvs "variables".data).getD (.obj []) with
    | .obj ((first_key, .obj ikvs) :: _) =>
      let upc := (jGet ikvs "upc".data).getD .null
      if usableUpc upc then
        some {
          upc := pyStr upc
          item_name := (jGet ikvs "name".data).getD (.str first_key)
          calories := (jGet ikvs "calories".data).getD (.num 0)
          fat_g := (jGet ikvs "fat".data).getD (.num 0)
          carbs_g := (jGet ikvs "carbohydrates".data).getD (.num 0)
          protein_g := (jGet ikvs "protein".data).getD (.num 0)
          fiber_g := (jGet ikvs "fiber".data).getD (.num 0)
          sodium_mg := (jGet ikvs "sodium".data).getD (.num 0)
          brand_name := (jGet ikvs "brand_name".data).getD (.str "Unknown".data)
        }
      else none
    | _ => none
  | _ => none

/-- The barcode value `server.py`'s `save_product_to_db` would test:
`variables`' first entry's `"upc"` field (`None`, i.e. `.null`, when
absent).  `none` when the descent itself cannot reach a first dict item. -/
def extractUpc (data : JValue) : Option JValue :=
  match data with
  | .obj kvs =>
    match (jGet kvs "variables".data).getD (.obj []) with
    | .obj ((_, .obj ikvs) :: _) => some ((jGet ikvs "upc".data).getD .null)
    | _ => none
  | _ => none

end Server

namespace Database

/-- Embedding of `database.py` `save_product_to_db` (lines 54-121): same
descent to the first `variables` entry, then section dicts
`metadata` / `macros` / `micros` / `serving_info` / `analysis` (each
defaulting to `{}` when absent), barcode from `metadata.upc` with a flat
`upc` fallback, and field lookups with **no** defaults (`dict.get` returns
`None`).  A non-dict section makes the Python code raise at its `.get`
call (swallowed → nothing saved); the barcode check happens before the
`macros`/`micros`/`serving_info`/`analysis` lookups, but every such
divergence in evaluation order still ends with nothing saved, so the
result is modelled uniformly as `none`. -/
def save_product_to_db (data : JValue) : Option ProductRowDb :=
  match data with
  | .obj kvs =>
    match (jGet kvs "variables".data).getD (.obj []) with
    | .obj ((first_key, .obj ikvs) :: _) =>
      match (jGet ikvs "metadata".data).getD (.obj []),
            (jGet ikvs "macros".data).getD (.obj []),
            (jGet ikvs "micros".data).getD (.obj []),
            (jGet ikvs "serving_info".data).getD (.obj []),
            (jGet ikvs "analysis".data).getD (.obj []) with
      | .obj md, .obj mac, .obj mic, .obj srv, .obj ana =>
        let upc0 := (jGet md "upc".data).getD .null
        let upc := if usableUpc upc0 then upc0 else (jGet ikvs "upc".data).getD .null
        if usableUpc upc then
          some {
            upc := pyStr upc
            item_name := (jGet md "name".data).getD (.str first_key)
            brand_name := (jGet md "brand".data).getD .null
            srv_per_cont := (jGet md "srv_per_cont".data).getD .null
            calories := (jGet mac "calories".data).getD .null
            fat_g := (jGet mac "fat_g".data).getD .null
            cholesterol_mg := (jGet mac "cholesterol_mg".data).getD .null
            sodium_mg := (jGet mac "sodium_mg".data).getD .null
            carbs_g := (jGet mac "carbs_g".data).getD .null
            fiber_g := (jGet mac "fiber_g".data).getD .null
            total_sugars_g := (jGet mac "total_sugars_g".data).getD .null
            added_sugars_g := (jGet mac "added_sugars_g".data).getD .null
            protein_g := (jGet mac "protein_g".data).getD .null
            vit_d_mcg := (jGet mic "vit_d_mcg".data).getD .null
            calcium_mg := (jGet mic "calcium_mg".data).getD .null
            iron_mg := (jGet mic "iron_mg".data).getD .null
            potassium_mg := (jGet mic "potassium_mg".data).getD .null
            serving_size := (jGet srv "size".data).getD .null
            score_color := (jGet ana "score_color".data).getD .null
            health_insight := (jGet ana "health_insight".data).getD .null
            pairing_tip := (jGet ana "pairing_tip".data).getD .null
          }
        else none
      | _, _, _, _, _ => none
    | _ => none
  | _ => none

/-- The barcode value `database.py`'s `save_product_to_db` would test:
`metadata.upc` when usable, else the flat `upc` fallback. -/
def extractUpc (data : JValue) : Option JValue :=
  match data with
  | .obj kvs =>
    match (jGet kvs "variables".data).getD (.obj []) with
    | .obj ((_, .obj ikvs) :: _) =>
      match (jGet ikvs "metadata".data).getD (.obj []) with
      | .obj md =>
        let upc0 := (jGet md "upc".data).getD .null
        some (if usableUpc upc0 then upc0 else (jGet ikvs "upc".data).getD .null)
      | _ => none
    | _ => none
  | _ => none

end Database

/-!
The SQLite table, keyed by `upc` (`TEXT PRIMARY KEY`), is modelled as a
list of rows in which lookup is by first match; `INSERT OR REPLACE`
replaces the row with the same key.
-/

/-- Embedding of `get_product_from_db` (server.py lines 57-68): `None` for a
falsy (empty) barcode, else the row whose primary key equals `upc`. -/
def get_product_from_db (db : List ProductRow) (upc : List Char) : Option ProductRow :=
  if upc = [] then none
  else db.find? (fun r => r.upc == upc)

/-- `INSERT OR REPLACE INTO products`: the new row replaces any row with the
same primary key. -/
def upsertProduct (db : List ProductRow) (row : ProductRow) : List ProductRow :=
  row :: db.filter (fun r => !(r.upc == row.upc))

/-- The JSON body returned by `GET /product/{upc}` (`check_product`,
server.py lines 116-129). -/
structure LookupResponse where
  status : List Char
  data : Option ProductRow
  source : Option (List Char)
  message : Option (List Char)

/-- Embedding of `check_product`: read-through lookup only — the definition
takes no AI collaborator at all, so no AI call is involved. -/
def check_product (db : List ProductRow) (upc : List Char) : LookupResponse :=
  match get_product_from_db db upc with
  | some r =>
    { status := "found".data, data := some r
      source := some "Local DB".data, message := none }
  | none =>
    { status := "not_found".data, data := none
      source := none, message := some "Item unknown. Please scan label.".data }

/-!
The `/analyze` endpoint.  External collaborators are parameters: the single
Gemini call's outcome is an `Except` (exception message or reply text) and
`json.loads` is a `parse` function returning `none` where Python raises
`JSONDecodeError`.  The trace records everything the claims mention: the
HTTP-level response body and status code, how many AI calls were made, the
back-off sleeps performed, the files written to disk, and the row upserted.
`dbFails` models an exception raised by the SQLite upsert; `server.py`
swallows it inside `save_product_to_db`, leaving nothing persisted.
-/

/-- The JSON body returned by `POST /analyze`. -/
structure AnalyzeResponse where
  status : List Char
  data : Option JValue
  raw_text : Option (List Char)
  message : Option (List Char)
  source : Option (List Char)

/-- Full observable trace of one `/analyze` request. -/
structure AnalyzeTrace where
  response : AnalyzeResponse
  httpStatus : Nat
  aiAttempts : Nat
  sleepsSeconds : List Nat
  filesWritten : List (List Char)
  persisted : Option ProductRow

/-- Embedding of `analyze_evidence` (server.py lines 131-187).  The source
writes the upload to disk unconditionally (no image validation exists in
`server.py`), performs exactly one `generate_content` call with no retry
loop and no sleeping (no loop or `sleep` exists in the function), cleans and
parses the reply, saves via `Server.save_product_to_db`, and always returns
a plain dict — FastAPI serves it with HTTP status 200 on every path. -/
def analyze_evidence (fileBytes : List Char) (aiReply : Except (List Char) (List Char))
    (parse : List Char → Option JValue) (dbFails : Bool) : AnalyzeTrace :=
  let written := [fileBytes]
  match aiReply with
  | .error e =>
    { response := { status := "error".data, data := none, raw_text := none,
                    message := some e, source := none }
      httpStatus := 200, aiAttempts := 1, sleepsSeconds := [], filesWritten := written
      persisted := none }
  | .ok result_text =>
    match parse (cleanJson result_text) with
    | some analysis_data =>
      { response := { status := "success".data, data := some analysis_data, raw_text := none,
                      message := none, source := some "Gemini API".data }
        httpStatus := 200, aiAttempts := 1, sleepsSeconds := [], filesWritten := written
        persisted := if dbFails then none else Server.save_product_to_db analysis_data }
    | none =>
      { response := { status := "partial_success".data, data := none,
                      raw_text := some result_text, message := none, source := none }
        httpStatus := 200, aiAttempts := 1, sleepsSeconds := [], filesWritten := written
        persisted := none }

/-!
Supporting lemmas shared by the claim theorems.
-/

theorem natDecGo_ne_nil (f n : Nat) : natDecGo (f + 1) n ≠ [] := by
  simp only [natDecGo]
  split
  · simp
  · intro h
    exact absurd (List.append_eq_nil.mp h).2 (by simp)

theorem pyStrNat_ne_nil (n : Nat) : pyStrNat n ≠ [] := natDecGo_ne_nil n n

theorem pyStrInt_ne_nil (i : Int) : pyStrInt i ≠ [] := by
  cases i with
  | ofNat n => exact pyStrNat_ne_nil n
  | negSucc m => simp [pyStrInt]

theorem pyStr_ne_nil_of_truthy (u : JValue) (h : jTruthy u = true) : pyStr u ≠ [] := by
  cases u with
  | null => simp [jTruthy] at h
  | bool b =>
    cases b with
    | true => simp [pyStr]
    | false => simp [jTruthy] at h
  | num n => exact pyStrInt_ne_nil n
  | str s =>
    simp only [jTruthy, Bool.not_eq_true'] at h
    simpa [pyStr] using h
  | arr xs =>
    show pyRepr (.arr xs) ≠ []
    rw [pyRepr]
    simp
  | obj kvs =>
    show pyRepr (.obj kvs) ≠ []
    rw [pyRepr]
    simp

theorem usableUpc_ne_null_ne_nullstr (u : JValue) (h : usableUpc u = true) :
    u ≠ JValue.null ∧ u ≠ JValue.str "null".data := by
  constructor
  · rintro rfl
    simp [usableUpc, jTruthy] at h
  · rintro rfl
    simp [usableUpc, jTruthy] at h

theorem usableUpc_truthy (u : JValue) (h : usableUpc u = true) : jTruthy u = true := by
  simp only [usableUpc, Bool.and_eq_true] at h
  exact h.1

theorem server_save_spec (data : JValue) (row : ProductRow)
    (h : Server.save_product_to_db data = some row) :
    ∃ u, Server.extractUpc data = some u ∧ usableUpc u = true ∧ row.upc = pyStr u := by
  cases data with
  | obj kvs =>
    simp only [Server.save_product_to_db] at h
    split at h
    · rename_i first_key ikvs tail heq
      split at h
      · rename_i hcond
        injection h with h'
        refine ⟨(jGet ikvs "upc".data).getD .null, ?_, hcond, ?_⟩
        · simp only [Server.extractUpc]
          rw [heq]
        · rw [← h']
      · exact Option.noConfusion h
    · exact Option.noConfusion h
  | null => exact Option.noConfusion h
  | bool b => exact Option.noConfusion h
  | num n => exact Option.noConfusion h
  | str s => exact Option.noConfusion h
  | arr xs => exact Option.noConfusion h

theorem database_save_spec (data : JValue) (row : ProductRowDb)
    (h : Database.save_product_to_db data = some row) :
    ∃ u, Database.extractUpc data = some u ∧ usableUpc u = true ∧ row.upc = pyStr u := by
  cases data with
  | obj kvs =>
    simp only [Database.save_product_to_db] at h
    split at h
    · rename_i first_key ikvs tail heq
      split at h
      · rename_i md mac mic srv ana hmd hmac hmic hsrv hana
        by_cases h0 : usableUpc ((jGet md "upc".data).getD .null) = true
        · rw [if_pos h0, if_pos h0] at h
          injection h with h'
          refine ⟨(jGet md "upc".data).getD .null, ?_, h0, ?_⟩
          · simp only [Database.extractUpc, heq, hmd]
            rw [if_pos h0]
          · rw [← h']
        · rw [if_neg h0] at h
          split at h
          · rename_i hcond
            injection h with h'
            refine ⟨(jGet ikvs "upc".data).getD .null, ?_, hcond, ?_⟩
            · simp only [Database.extractUpc, heq, hmd]
              rw [if_neg h0]
            · rw [← h']
          · exact Option.noConfusion h
      · exact Option.noConfusion h
    · exact Option.noConfusion h
  | null => exact Option.noConfusion h
  | bool b => exact Option.noConfusion h
  | num n => exact Option.noConfusion h
  | str s => exact Option.noConfusion h
  | arr xs => exact Option.noConfusion h

/-!
Claim theorems.
-/

/-- C1: counter to the claimed retry policy (and to `test_retry_logic.py`),
`analyze_evidence` in `server.py` performs exactly one AI call, sleeps for no
back-off delay at all, and surfaces the error immediately even when the
failure is a rate-limit (429) signal: the trace of a request whose first and
only AI call fails with a 429 quota error shows one attempt, an empty sleep
list, and an immediate `error` status carrying that message. -/
theorem c1_rate_limited_call_not_retried :
    (analyze_evidence "image-bytes".data
        (.error "429 RESOURCE_EXHAUSTED: You exceeded your current quota".data)
        (fun _ => none) false).aiAttempts = 1 ∧
    (analyze_evidence "image-bytes".data
        (.error "429 RESOURCE_EXHAUSTED: You exceeded your current quota".data)
        (fun _ => none) false).sleepsSeconds = [] ∧
    (analyze_evidence "image-bytes".data
        (.error "429 RESOURCE_EXHAUSTED: You exceeded your current quota".data)
        (fun _ => none) false).response.status = "error".data ∧
    (analyze_evidence "image-bytes".data
        (.error "429 RESOURCE_EXHAUSTED: You exceeded your current quota".data)
        (fun _ => none) false).response.message
      = some "429 RESOURCE_EXHAUSTED: You exceeded your current quota".data :=
  ⟨rfl, rfl, rfl, rfl⟩

/-- C2: counter to the claimed validation, `analyze_evidence` in `server.py`
writes the uploaded bytes to disk unconditionally, still performs the AI
call, and answers at HTTP status 200 even when the bytes are not a decodable
image: the trace of a request uploading non-image bytes records the file
write, one AI attempt, and a 200 status. -/
theorem c2_invalid_image_not_rejected :
    (analyze_evidence "plainly-not-an-image".data (.ok "reply".data)
        (fun _ => none) false).filesWritten = ["plainly-not-an-image".data] ∧
    (analyze_evidence "plainly-not-an-image".data (.ok "reply".data)
        (fun _ => none) false).aiAttempts = 1 ∧
    (analyze_evidence "plainly-not-an-image".data (.ok "reply".data)
        (fun _ => none) false).httpStatus = 200 :=
  ⟨rfl, rfl, rfl⟩

/-- C4: a model reply wrapped in the literal `"```json"` opening and
`"```"` closing markers cleans to exactly the same text as the unwrapped
reply — hence every parser sees the same parsed result — and whenever the
cleaned text parses, the whole Analyze outcome (response, HTTP status, and
persistence trace) is identical with and without the fences. -/
theorem c4_fenced_reply_equivalent (t : List Char) :
    cleanJson (wrapFence t) = cleanJson t ∧
    ∀ (img : List Char) (parse : List Char → Option JValue) (dbFails : Bool) (v : JValue),
      parse (cleanJson t) = some v →
      analyze_evidence img (.ok (wrapFence t)) parse dbFails
        = analyze_evidence img (.ok t) parse dbFails := by
  refine ⟨cleanJson_wrapFence t, ?_⟩
  intro img parse dbFails v hv
  simp only [analyze_evidence, cleanJson_wrapFence t, hv]

/-- Witness for C4 at the JSON text `123`. -/
theorem c4_fenced_reply_equivalent_witness :
    cleanJson (wrapFence "123".data) = cleanJson "123".data ∧
    analyze_evidence "img".data (.ok (wrapFence "123".data))
        (fun s => if s = "123".data then some (.num 123) else none) false
      = analyze_evidence "img".data (.ok "123".data)
        (fun s => if s = "123".data then some (.num 123) else none) false :=
  ⟨(c4_fenced_reply_equivalent "123".data).1,
   (c4_fenced_reply_equivalent "123".data).2 "img".data
     (fun s => if s = "123".data then some (.num 123) else none) false (.num 123) rfl⟩

/-- C5: whenever the cleaned reply text does not parse as JSON, Analyze
answers `partial_success` at HTTP 200, carrying the original raw reply text
verbatim (not the cleaned text), and the status is not `error`. -/
theorem c5_partial_success_keeps_raw_text (img t : List Char)
    (parse : List Char → Option JValue) (dbFails : Bool)
    (h : parse (cleanJson t) = none) :
    (analyze_evidence img (.ok t) parse dbFails).response.status
      = "partial_success".data ∧
    (analyze_evidence img (.ok t) parse dbFails).response.raw_text = some t ∧
    (analyze_evidence img (.ok t) parse dbFails).httpStatus = 200 ∧
    (analyze_evidence img (.ok t) parse dbFails).response.status ≠ "error".data := by
  refine ⟨?_, ?_, ?_, ?_⟩ <;> simp [analyze_evidence, h]

/-- Witness for C5 at the unparseable reply `hello`. -/
theorem c5_partial_success_keeps_raw_text_witness :
    (analyze_evidence "img".data (.ok "hello".data) (fun _ => none) false).response.status
      = "partial_success".data ∧
    (analyze_evidence "img".data (.ok "hello".data) (fun _ => none) false).response.raw_text
      = some "hello".data ∧
    (analyze_evidence "img".data (.ok "hello".data) (fun _ => none) false).httpStatus = 200 ∧
    (analyze_evidence "img".data (.ok "hello".data) (fun _ => none) false).response.status
      ≠ "error".data :=
  c5_partial_success_keeps_raw_text "img".data "hello".data (fun _ => none) false rfl

/-- C8: the request outcome — the whole JSON response body and the HTTP
status — is the same whether the SQLite upsert raises (`dbFails = true`,
the exception being swallowed inside `save_product_to_db`) or succeeds; the
persistence failure is never surfaced to the caller. -/
theorem c8_upsert_failure_never_changes_outcome (img : List Char)
    (aiReply : Except (List Char) (List Char)) (parse : List Char → Option JValue)
    (d d' : Bool) :
    (analyze_evidence img aiReply parse d).response
      = (analyze_evidence img aiReply parse d').response ∧
    (analyze_evidence img aiReply parse d).httpStatus
      = (analyze_evidence img aiReply parse d').httpStatus := by
  cases aiReply with
  | error e => exact ⟨rfl, rfl⟩
  | ok t =>
    cases hp : parse (cleanJson t) with
    | none => refine ⟨?_, ?_⟩ <;> simp [analyze_evidence, hp]
    | some v => refine ⟨?_, ?_⟩ <;> simp [analyze_evidence, hp]

/-- C6: a cache record is produced only when the extracted barcode is usable
— in particular non-`None` and different from the string `"null"` — in both
persistence functions; when no usable barcode can be extracted nothing is
persisted, and Analyze nevertheless answers `success` carrying the parsed
data. -/
theorem c6_persist_only_with_usable_barcode :
    (∀ data row, Server.save_product_to_db data = some row →
       ∃ u, Server.extractUpc data = some u ∧ usableUpc u = true ∧
         u ≠ JValue.null ∧ u ≠ JValue.str "null".data) ∧
    (∀ data, (∀ u, Server.extractUpc data = some u → usableUpc u = false) →
       Server.save_product_to_db data = none) ∧
    (∀ data row, Database.save_product_to_db data = some row →
       ∃ u, Database.extractUpc data = some u ∧ usableUpc u = true ∧
         u ≠ JValue.null ∧ u ≠ JValue.str "null".data) ∧
    (∀ (img t : List Char) (parse : List Char → Option JValue) (dbFails : Bool) v,
       parse (cleanJson t) = some v →
       (analyze_evidence img (.ok t) parse dbFails).response.status = "success".data ∧
       (analyze_evidence img (.ok t) parse dbFails).response.data = some v) := by
  refine ⟨?_, ?_, ?_, ?_⟩
  · intro data row h
    obtain ⟨u, he, hu, _⟩ := server_save_spec data row h
    exact ⟨u, he, hu, usableUpc_ne_null_ne_nullstr u hu⟩
  · intro data hno
    cases hs : Server.save_product_to_db data with
    | none => rfl
    | some row =>
      obtain ⟨u, he, hu, _⟩ := server_save_spec data row hs
      rw [hno u he] at hu
      exact Bool.noConfusion hu
  · intro data row h
    obtain ⟨u, he, hu, _⟩ := database_save_spec data row h
    exact ⟨u, he, hu, usableUpc_ne_null_ne_nullstr u hu⟩
  · intro img t parse dbFails v hv
    refine ⟨?_, ?_⟩ <;> simp [analyze_evidence, hv]

/-- Witness for C6: a reply whose only barcode is the string `"null"` is not
persisted, while Analyze still answers `success` with the parsed data. -/
theorem c6_persist_only_with_usable_barcode_witness :
    Server.save_product_to_db (.obj [("variables".data,
      .obj [("X".data, .obj [("upc".data, .str "null".data)])])]) = none ∧
    (analyze_evidence "img".data (.ok "7".data)
        (fun s => if s = "7".data then some (.num 7) else none) false).response.status
      = "success".data ∧
    (analyze_evidence "img".data (.ok "7".data)
        (fun s => if s = "7".data then some (.num 7) else none) false).response.data
      = some (.num 7) := by
  refine ⟨?_, ?_, ?_⟩
  · apply c6_persist_only_with_usable_barcode.2.1
    intro u hu
    have h0 : Server.extractUpc (.obj [("variables".data,
        .obj [("X".data, .obj [("upc".data, .str "null".data)])])])
        = some (.str "null".data) := rfl
    rw [h0] at hu
    rw [← Option.some.inj hu]
    rfl
  · exact (c6_persist_only_with_usable_barcode.2.2.2 "img".data "7".data
      (fun s => if s = "7".data then some (.num 7) else none) false (.num 7) rfl).1
  · exact (c6_persist_only_with_usable_barcode.2.2.2 "img".data "7".data
      (fun s => if s = "7".data then some (.num 7) else none) false (.num 7) rfl).2

/-- C7: both persistence functions consult only the first entry of the
`variables` mapping — the saved outcome is unchanged by whatever further
entries follow — and an absent or empty `variables` mapping persists
nothing while Analyze still answers `success` (not an error). -/
theorem c7_first_variables_entry_only :
    (∀ kvs kvs2 k item rest rest',
       jGet kvs "variables".data = some (.obj ((k, item) :: rest)) →
       jGet kvs2 "variables".data = some (.obj ((k, item) :: rest')) →
       Server.save_product_to_db (.obj kvs) = Server.save_product_to_db (.obj kvs2) ∧
       Database.save_product_to_db (.obj kvs) = Database.save_product_to_db (.obj kvs2)) ∧
    (∀ kvs, jGet kvs "variables".data = none →
       Server.save_product_to_db (.obj kvs) = none ∧
       Database.save_product_to_db (.obj kvs) = none) ∧
    (∀ kvs, jGet kvs "variables".data = some (.obj []) →
       Server.save_product_to_db (.obj kvs) = none ∧
       Database.save_product_to_db (.obj kvs) = none) ∧
    (∀ (img t : List Char) (parse : List Char → Option JValue) (dbFails : Bool) kvs,
       parse (cleanJson t) = some (.obj kvs) →
       jGet kvs "variables".data = none ∨ jGet kvs "variables".data = some (.obj []) →
       (analyze_evidence img (.ok t) parse dbFails).response.status = "success".data ∧
       (analyze_evidence img (.ok t) parse dbFails).persisted = none) := by
  refine ⟨?_, ?_, ?_, ?_⟩
  · intro kvs kvs2 k item rest rest' h1 h2
    constructor
    · cases item <;> simp only [Server.save_product_to_db, h1, h2, Option.getD_some]
    · cases item <;> simp only [Database.save_product_to_db, h1, h2, Option.getD_some]
  · intro kvs h
    constructor
    · simp [Server.save_product_to_db, h]
    · simp [Database.save_product_to_db, h]
  · intro kvs h
    constructor
    · simp [Server.save_product_to_db, h]
    · simp [Database.save_product_to_db, h]
  · intro img t parse dbFails kvs hv hvar
    constructor
    · simp [analyze_evidence, hv]
    · rcases hvar with h | h <;> cases dbFails <;>
        simp [analyze_evidence, hv, Server.save_product_to_db, h]

/-- Witness for C7: appending a second item to `variables` does not change
what is saved, and an empty `variables` saves nothing while Analyze still
answers `success`. -/
theorem c7_first_variables_entry_only_witness :
    (Server.save_product_to_db (.obj [("variables".data,
        .obj [("A".data, .obj [("upc".data, .str "1".data)]), ("B".data, .null)])])
      = Server.save_product_to_db (.obj [("variables".data,
        .obj [("A".data, .obj [("upc".data, .str "1".data)])])]) ∧
     Database.save_product_to_db (.obj [("variables".data,
        .obj [("A".data, .obj [("upc".data, .str "1".data)]), ("B".data, .null)])])
      = Database.save_product_to_db (.obj [("variables".data,
        .obj [("A".data, .obj [("upc".data, .str "1".data)])])])) ∧
    (Server.save_product_to_db (.obj []) = none ∧
     Database.save_product_to_db (.obj []) = none) ∧
    ((analyze_evidence "img".data (.ok "e".data)
        (fun s => if s = "e".data then some (.obj []) else none) false).response.status
       = "success".data ∧
     (analyze_evidence "img".data (.ok "e".data)
        (fun s => if s = "e".data then some (.obj []) else none) false).persisted = none) :=
  ⟨c7_first_variables_entry_only.1 _ _ "A".data (.obj [("upc".data, .str "1".data)])
      [("B".data, .null)] [] rfl rfl,
   c7_first_variables_entry_only.2.1 [] rfl,
   c7_first_variables_entry_only.2.2.2 "img".data "e".data
     (fun s => if s = "e".data then some (.obj []) else none) false [] rfl (Or.inl rfl)⟩

/-- C9: every barcode persisted by the server is a non-empty string, lookup
of a present barcode answers `found` with exactly the stored record, lookup
of an absent barcode answers `not_found` with the guidance message, and
`check_product` takes no AI collaborator at all. -/
theorem c9_lookup_found_and_not_found :
    (∀ data row, Server.save_product_to_db data = some row → row.upc ≠ []) ∧
    (∀ db upc row, upc ≠ [] → db.find? (fun r => r.upc == upc) = some row →
       check_product db upc = { status := "found".data
                                data := some row
                                source := some "Local DB".data
                                message := none }) ∧
    (∀ db upc, db.find? (fun r => r.upc == upc) = none →
       check_product db upc = { status := "not_found".data
                                data := none
                                source := none
                                message := some "Item unknown. Please scan label.".data }) := by
  refine ⟨?_, ?_, ?_⟩
  · intro data row h
    obtain ⟨u, _, hu, hupc⟩ := server_save_spec data row h
    rw [hupc]
    exact pyStr_ne_nil_of_truthy u (usableUpc_truthy u hu)
  · intro db upc row hne hf
    simp [check_product, get_product_from_db, hne, hf]
  · intro db upc hf
    by_cases h : upc = []
    · simp [check_product, get_product_from_db, h]
    · simp [check_product, get_product_from_db, h, hf]

/-- Witness for C9: lookup of the stored barcode `1` answers `found` with
the stored record; lookup of `2` in an empty table answers `not_found`. -/
theorem c9_lookup_found_and_not_found_witness :
    check_product [(⟨"1".data, .null, .null, .null, .null, .null, .null, .null, .null⟩ :
        ProductRow)] "1".data
      = { status := "found".data
          data := some ⟨"1".data, .null, .null, .null, .null, .null, .null, .null, .null⟩
          source := some "Local DB".data
          message := none } ∧
    check_product ([] : List ProductRow) "2".data
      = { status := "not_found".data
          data := none
          source := none
          message := some "Item unknown. Please scan label.".data } :=
  ⟨c9_lookup_found_and_not_found.2.1 _ "1".data _ (by decide) rfl,
   c9_lookup_found_and_not_found.2.2 [] "2".data rfl⟩

/-- A row written by `INSERT OR REPLACE` is afterwards readable under its
own (non-empty) primary key. -/
theorem get_after_upsert (db : List ProductRow) (row : ProductRow) (h : row.upc ≠ []) :
    get_product_from_db (upsertProduct db row) row.upc = some row := by
  simp only [get_product_from_db, upsertProduct]
  rw [if_neg h, List.find?_cons_of_pos _ (by simp)]

/-- C10: both persistence functions store the record under the `str()` form
of the extracted barcode value; in particular a barcode delivered as the
JSON number `n` is stored under its decimal-string form and is afterwards
retrievable by lookup with that string. -/
theorem c10_barcode_stored_as_str_form :
    (∀ data row, Server.save_product_to_db data = some row →
       ∃ u, Server.extractUpc data = some u ∧ row.upc = pyStr u) ∧
    (∀ data row, Database.save_product_to_db data = some row →
       ∃ u, Database.extractUpc data = some u ∧ row.upc = pyStr u) ∧
    (∀ kvs (k : List Char) ikvs rest (n : Int) db,
       jGet kvs "variables".data = some (.obj ((k, .obj ikvs) :: rest)) →
       jGet ikvs "upc".data = some (.num n) → n ≠ 0 →
       ∃ row, Server.save_product_to_db (.obj kvs) = some row ∧
         row.upc = pyStrInt n ∧
         get_product_from_db (upsertProduct db row) (pyStrInt n) = some row) := by
  refine ⟨?_, ?_, ?_⟩
  · intro data row h
    obtain ⟨u, he, _, hupc⟩ := server_save_spec data row h
    exact ⟨u, he, hupc⟩
  · intro data row h
    obtain ⟨u, he, _, hupc⟩ := database_save_spec data row h
    exact ⟨u, he, hupc⟩
  · intro kvs k ikvs rest n db hv hu hn
    have husable : usableUpc ((jGet ikvs "upc".data).getD .null) = true := by
      rw [hu]
      simp only [Option.getD_some, usableUpc, jTruthy]
      simp [hn]
    have hsave : Server.save_product_to_db (.obj kvs)
        = some { upc := pyStr ((jGet ikvs "upc".data).getD .null)
                 item_name := (jGet ikvs "name".data).getD (.str k)
                 calories := (jGet ikvs "calories".data).getD (.num 0)
                 fat_g := (jGet ikvs "fat".data).getD (.num 0)
                 carbs_g := (jGet ikvs "carbohydrates".data).getD (.num 0)
                 protein_g := (jGet ikvs "protein".data).getD (.num 0)
                 fiber_g := (jGet ikvs "fiber".data).getD (.num 0)
                 sodium_mg := (jGet ikvs "sodium".data).getD (.num 0)
                 brand_name := (jGet ikvs "brand_name".data).getD (.str "Unknown".data) } := by
      simp only [Server.save_product_to_db, hv, Option.getD_some]
      rw [if_pos husable]
    have hupceq : pyStr ((jGet ikvs "upc".data).getD .null) = pyStrInt n := by
      rw [hu]
      rfl
    refine ⟨_, hsave, hupceq, ?_⟩
    have hne : pyStr ((jGet ikvs "upc".data).getD .null) ≠ [] := by
      rw [hupceq]
      exact pyStrInt_ne_nil n
    rw [← hupceq]
    exact get_after_upsert db _ hne

/-- Witness for C10 at the numeric barcode `12345`. -/
theorem c10_barcode_stored_as_str_form_witness :
    ∃ row, Server.save_product_to_db (.obj [("variables".data,
        .obj [("X".data, .obj [("upc".data, .num 12345)])])]) = some row ∧
      row.upc = pyStrInt 12345 ∧
      get_product_from_db (upsertProduct [] row) (pyStrInt 12345) = some row :=
  c10_barcode_stored_as_str_form.2.2
    [("variables".data, .obj [("X".data, .obj [("upc".data, .num 12345)])])]
    "X".data [("upc".data, .num 12345)] [] 12345 [] rfl rfl (by decide)

/-- C3 counterexample: on a nested-shape reply whose first item carries its
barcode under `metadata` and omits the nutrient and brand fields, the
interpreter used by Analyze (`server.py`) persists nothing at all, and the
`database.py` interpreter persists the row with brand `None` (not
`"Unknown"`) and calories `None` (not `0`) — so no interpreter accepts both
shapes with zero / `"Unknown"` defaults. -/
theorem c3_nested_shape_defaults_counterexample :
    Server.save_product_to_db (.obj [("variables".data,
      .obj [("Item".data, .obj [("metadata".data,
        .obj [("upc".data, .str "12".data)])])])]) = none ∧
    ∃ row, Database.save_product_to_db (.obj [("variables".data,
        .obj [("Item".data, .obj [("metadata".data,
          .obj [("upc".data, .str "12".data)])])])]) = some row ∧
      row.brand_name = JValue.null ∧ row.brand_name ≠ JValue.str "Unknown".data ∧
      row.calories = JValue.null ∧ row.calories ≠ JValue.num 0 :=
  ⟨rfl, ⟨_, rfl, rfl, fun h => JValue.noConfusion h, rfl, fun h => JValue.noConfusion h⟩⟩

/-- C3 (amended): the two interpreters split the claimed behaviour.  The one
wired into Analyze (`server.py`) accepts the flat shape, defaulting every
absent numeric field to `0` and an absent brand to `"Unknown"`, and persists
nothing when the barcode sits only in nested sections; the `database.py`
interpreter accepts the nested shape (barcode from `metadata`, with a flat
fallback) but persists absent brand and absent numeric fields as `None`. -/
theorem c3_flat_and_nested_interpreters :
    (∀ (k : List Char) ikvs rest u,
       jGet ikvs "upc".data = some u → usableUpc u = true →
       jGet ikvs "calories".data = none → jGet ikvs "fat".data = none →
       jGet ikvs "carbohydrates".data = none → jGet ikvs "protein".data = none →
       jGet ikvs "fiber".data = none → jGet ikvs "sodium".data = none →
       jGet ikvs "brand_name".data = none →
       ∃ row, Server.save_product_to_db
           (.obj [("variables".data, .obj ((k, .obj ikvs) :: rest))]) = some row ∧
         row.upc = pyStr u ∧ row.calories = JValue.num 0 ∧ row.fat_g = JValue.num 0 ∧
         row.carbs_g = JValue.num 0 ∧ row.protein_g = JValue.num 0 ∧
         row.fiber_g = JValue.num 0 ∧ row.sodium_mg = JValue.num 0 ∧
         row.brand_name = JValue.str "Unknown".data) ∧
    (∀ (k : List Char) ikvs rest,
       jGet ikvs "upc".data = none →
       Server.save_product_to_db
         (.obj [("variables".data, .obj ((k, .obj ikvs) :: rest))]) = none) ∧
    (∀ (k : List Char) ikvs rest md u,
       jGet ikvs "metadata".data = some (.obj md) →
       jGet md "upc".data = some u → usableUpc u = true →
       jGet md "brand".data = none →
       jGet ikvs "macros".data = none → jGet ikvs "micros".data = none →
       jGet ikvs "serving_info".data = none → jGet ikvs "analysis".data = none →
       ∃ row, Database.save_product_to_db
           (.obj [("variables".data, .obj ((k, .obj ikvs) :: rest))]) = some row ∧
         row.upc = pyStr u ∧ row.brand_name = JValue.null ∧
         row.calories = JValue.null) := by
  refine ⟨?_, ?_, ?_⟩
  · intro k ikvs rest u hu husable h1 h2 h3 h4 h5 h6 h7
    have hup : (jGet ikvs "upc".data).getD .null = u := by rw [hu]; rfl
    have hvar : jGet [("variables".data, JValue.obj ((k, .obj ikvs) :: rest))] "variables".data
        = some (JValue.obj ((k, .obj ikvs) :: rest)) := by simp [jGet]
    have hsave : Server.save_product_to_db
        (.obj [("variables".data, .obj ((k, .obj ikvs) :: rest))])
        = some { upc := pyStr u
                 item_name := (jGet ikvs "name".data).getD (.str k)
                 calories := JValue.num 0
                 fat_g := JValue.num 0
                 carbs_g := JValue.num 0
                 protein_g := JValue.num 0
                 fiber_g := JValue.num 0
                 sodium_mg := JValue.num 0
                 brand_name := JValue.str "Unknown".data } := by
      simp only [Server.save_product_to_db, hvar, Option.getD_some,
        h1, h2, h3, h4, h5, h6, h7, Option.getD_none, hup]
      rw [if_pos husable]
    exact ⟨_, hsave, rfl, rfl, rfl, rfl, rfl, rfl, rfl, rfl⟩
  · intro k ikvs rest h
    have hvar : jGet [("variables".data, JValue.obj ((k, .obj ikvs) :: rest))] "variables".data
        = some (JValue.obj ((k, .obj ikvs) :: rest)) := by simp [jGet]
    simp only [Server.save_product_to_db, hvar, Option.getD_some, h, Option.getD_none]
    rw [if_neg (by decide)]
  · intro k ikvs rest md u hmd hmdu husable hbrand hmac hmic hsrv hana
    have hup : (jGet md "upc".data).getD .null = u := by rw [hmdu]; rfl
    have hvar : jGet [("variables".data, JValue.obj ((k, .obj ikvs) :: rest))] "variables".data
        = some (JValue.obj ((k, .obj ikvs) :: rest)) := by simp [jGet]
    have hsave : Database.save_product_to_db
        (.obj [("variables".data, .obj ((k, .obj ikvs) :: rest))])
        = some { upc := pyStr u
                 item_name := (jGet md "name".data).getD (.str k)
                 brand_name := JValue.null
                 srv_per_cont := (jGet md "srv_per_cont".data).getD JValue.null
                 calories := JValue.null
                 fat_g := JValue.null
                 cholesterol_mg := JValue.null
                 sodium_mg := JValue.null
                 carbs_g := JValue.null
                 fiber_g := JValue.null
                 total_sugars_g := JValue.null
                 added_sugars_g := JValue.null
                 protein_g := JValue.null
                 vit_d_mcg := JValue.null
                 calcium_mg := JValue.null
                 iron_mg := JValue.null
                 potassium_mg := JValue.null
                 serving_size := JValue.null
                 score_color := JValue.null
                 health_insight := JValue.null
                 pairing_tip := JValue.null } := by
      simp only [Database.save_product_to_db, hvar, Option.getD_some]
      simp only [jGet, Option.getD_some, Option.getD_none,
        hmd, hbrand, hmac, hmic, hsrv, hana, hup]
      rw [if_pos husable, if_pos husable]
    exact ⟨_, hsave, rfl, rfl, rfl⟩

/-- Witness for the amended C3: a flat item with barcode `9` and nothing
else persists zeros and `"Unknown"`; the same barcode moved under
`metadata` makes the server interpreter persist nothing while the database
interpreter persists `None` defaults. -/
theorem c3_flat_and_nested_interpreters_witness :
    (∃ row, Server.save_product_to_db (.obj [("variables".data,
        .obj [("X".data, .obj [("upc".data, .str "9".data)])])]) = some row ∧
      row.upc = pyStr (.str "9".data) ∧ row.calories = JValue.num 0 ∧
      row.fat_g = JValue.num 0 ∧ row.carbs_g = JValue.num 0 ∧
      row.protein_g = JValue.num 0 ∧ row.fiber_g = JValue.num 0 ∧
      row.sodium_mg = JValue.num 0 ∧ row.brand_name = JValue.str "Unknown".data) ∧
    Server.save_product_to_db (.obj [("variables".data,
      .obj [("X".data, .obj [("metadata".data,
        .obj [("upc".data, .str "9".data)])])])]) = none ∧
    (∃ row, Database.save_product_to_db (.obj [("variables".data,
        .obj [("X".data, .obj [("metadata".data,
          .obj [("upc".data, .str "9".data)])])])]) = some row ∧
      row.upc = pyStr (.str "9".data) ∧ row.brand_name = JValue.null ∧
      row.calories = JValue.null) :=
  ⟨c3_flat_and_nested_interpreters.1 "X".data [("upc".data, .str "9".data)] []
      (.str "9".data) rfl (by decide) rfl rfl rfl rfl rfl rfl rfl,
   c3_flat_and_nested_interpreters.2.1 "X".data
      [("metadata".data, .obj [("upc".data, .str "9".data)])] [] rfl,
   c3_flat_and_nested_interpreters.2.2 "X".data
      [("metadata".data, .obj [("upc".data, .str "9".data)])] []
      [("upc".data, .str "9".data)] (.str "9".data) rfl rfl (by decide) rfl rfl rfl rfl rfl⟩
